import Mathlib

/-!
Shallow embedding of the socket orchestration layer of
`matchbox_socket/src/webrtc_socket/socket.rs`: the configuration
builder, the multiplexed channel handles, the peer-state table and its
change diffing, the write-once identity latch, the readiness gate, and
the `run_socket` select loop.

Asynchronous mpsc links are modelled as FIFO buffers (`List`), with a
`try_next` on an open link popping the head when one is buffered and
failing (returning `none`) on an empty buffer.  Panics become `none`
results of `Option`-returning functions.  The `select!` race in
`run_socket` is modelled by the ordered list of completion events the
loop observes.
-/

set_option autoImplicit false

namespace Matchbox

/-- Opaque, equality-comparable token identifying one remote peer
(`matchbox_protocol::PeerId`, a Uuid wrapper outside this core). -/
abbrev PeerId := Nat

/-- Opaque application payload (`Packet = Box<[u8]>`). -/
abbrev Packet := List Nat

/-- The state of a connection to a peer (`enum PeerState`). -/
inductive PeerState where
  | Connected
  | Disconnected
  deriving DecidableEq, Repr

/-- Configuration options for a data channel (`struct ChannelConfig`). -/
structure ChannelConfig where
  ordered : Bool
  max_retransmits : Option Nat
  deriving DecidableEq, Repr

/-- `ChannelConfig::unreliable()`. -/
def ChannelConfig.unreliable : ChannelConfig :=
  { ordered := false, max_retransmits := some 0 }

/-- `ChannelConfig::reliable()`. -/
def ChannelConfig.reliable : ChannelConfig :=
  { ordered := true, max_retransmits := none }

/-- Configuration options for an ICE server connection
(`struct RtcIceServerConfig`). -/
structure RtcIceServerConfig where
  urls : List String
  username : Option String
  credential : Option String
  deriving DecidableEq, Repr

/-- `impl Default for RtcIceServerConfig`. -/
def RtcIceServerConfig.default : RtcIceServerConfig :=
  { urls := ["stun:stun.l.google.com:19302", "stun:stun1.l.google.com:19302"]
    username := none
    credential := none }

/-! ## Peer table (`HashMap<PeerId, PeerState>`)

The hash map is modelled as an association list without duplicate keys;
`insert` overwrites in place (returning the previous value, as
`HashMap::insert` does) or appends a fresh binding. -/

/-- The peer table: last observed state per peer. -/
abbrev PeerMap := List (PeerId × PeerState)

/-- Lookup of the recorded state for `id` in the peer table. -/
def lookupPeer : PeerMap → PeerId → Option PeerState
  | [], _ => none
  | (k, v) :: rest, id => if k = id then some v else lookupPeer rest id

/-- `HashMap::insert`: overwrites the binding for `id` (or appends one),
returning the previously recorded value. -/
def insertPeer : PeerMap → PeerId → PeerState → Option PeerState × PeerMap
  | [], id, st => (none, [(id, st)])
  | (k, v) :: rest, id, st =>
    if k = id then (some v, (id, st) :: rest)
    else
      let (old, rest') := insertPeer rest id st
      (old, (k, v) :: rest')

/-! ## Channel handles (`struct WebRtcChannel`)

Each handle owns its pipe pair: the outbound queue (caller →
collaborator, `tx`) and the inbound queue (collaborator → caller, `rx`),
both unbounded FIFO buffers of `(PeerId, Packet)` pairs. -/

/-- Used to send and receive packets on a given WebRTC channel.
`rx_closed` records whether the collaborator-facing sender half of the
inbound pipe has been dropped (which happens once the orchestration
future finishes or is dropped while the caller still holds the
handle): `try_next` on the inbound receiver then yields `Ok(None)`
instead of `Err` on an empty buffer. -/
structure WebRtcChannel where
  tx : List (PeerId × Packet)
  rx : List (PeerId × Packet)
  rx_closed : Bool
  deriving DecidableEq, Repr

/-- `WebRtcChannel::new()`: a fresh handle with empty pipe queues and
both halves open (the collaborator-facing halves alias these same
queues). -/
def WebRtcChannel.new : WebRtcChannel := { tx := [], rx := [], rx_closed := false }

/-- The collect loop of `receive`:
`repeat_with(try_next).map_while(Result::ok).flatten().collect()`.
Each `try_next` pops a buffered item (`Ok(Some(x))`); on an empty
buffer it returns `Err` while the sender half is open — the only
outcome that ends `map_while` — but `Ok(None)` forever once the sender
half has closed, which `map_while(Result::ok)` passes through as
`None` and `flatten` skips, so the infinite `repeat_with` iterator
never ends and `collect` never returns.  A terminating run collects
`some items`; the diverging closed-link run is `none`. -/
def receiveGo (rx_closed : Bool) : List (PeerId × Packet) → Option (List (PeerId × Packet))
  | [] => if rx_closed then none else some []
  | x :: rest => (receiveGo rx_closed rest).map (fun items => x :: items)

/-- `WebRtcChannel::receive`: drains every currently buffered inbound
item, in arrival order, removing them from the queue — when the call
returns at all; `none` is the run that never returns (sender half
closed, see `receiveGo`). -/
def WebRtcChannel.receive (c : WebRtcChannel) :
    Option (List (PeerId × Packet) × WebRtcChannel) :=
  (receiveGo c.rx_closed c.rx).map (fun items => (items, { c with rx := [] }))

/-- `WebRtcChannel::send`: enqueues `(peer, packet)` onto the outbound
queue (`unbounded_send`; never blocks while the collaborator side is
open, which this value model assumes). -/
def WebRtcChannel.send (c : WebRtcChannel) (packet : Packet) (peer : PeerId) : WebRtcChannel :=
  { c with tx := c.tx ++ [(peer, packet)] }

/-- The collaborator side delivering one inbound item into the handle's
inbound queue (a send on the `messages_from_peers_tx` half of the pipe). -/
def WebRtcChannel.pushInbound (c : WebRtcChannel) (item : PeerId × Packet) : WebRtcChannel :=
  { c with rx := c.rx ++ [item] }

/-! ## The socket handle (`struct WebRtcSocket`) -/

/-- Contains the per-channel handles and connection metadata.  `id` is
the write-once latch (`once_cell::race::OnceBox<PeerId>`), `id_rx` the
buffer of the capacity-one identity link, `peer_state_rx` the buffer of
the peer-state link fed by the message process. -/
structure WebRtcSocket where
  id : Option PeerId
  id_rx : List PeerId
  peer_state_rx : List (PeerId × PeerState)
  peers : PeerMap
  channels : List (Option WebRtcChannel)
  deriving DecidableEq, Repr

/-- `WebRtcSocket::channel`: panics (`none`) on an invalid index,
otherwise returns the entry, which is `none` if the channel has been
taken. -/
def WebRtcSocket.channel (s : WebRtcSocket) (ch : Nat) : Option (Option WebRtcChannel) :=
  s.channels.get? ch

/-- `WebRtcSocket.take_channel`: panics (`none`) on an invalid index,
otherwise removes and returns the entry, leaving `none` in its place. -/
def WebRtcSocket.take_channel (s : WebRtcSocket) (ch : Nat) :
    Option (Option WebRtcChannel × WebRtcSocket) :=
  match s.channels.get? ch with
  | none => none
  | some entry => some (entry, { s with channels := s.channels.set ch none })

/-- The drain loop of `update_peers`: `while let Ok(Some((id, state))) =
try_next` consumes every buffered event; each is inserted into the
table and pushed into the change list when the previous recorded value
differed (`old != Some(state)`). -/
def updatePeersGo (peers : PeerMap) :
    List (PeerId × PeerState) → List (PeerId × PeerState) × PeerMap
  | [] => ([], peers)
  | (id, st) :: rest =>
    let (old, peers') := insertPeer peers id st
    let (changes, final) := updatePeersGo peers' rest
    (if old ≠ some st then (id, st) :: changes else changes, final)

/-- `WebRtcSocket::update_peers`: drains the peer-state link without
blocking, records each event, returns the changes. -/
def WebRtcSocket.update_peers (s : WebRtcSocket) :
    List (PeerId × PeerState) × WebRtcSocket :=
  ((updatePeersGo s.peers s.peer_state_rx).1,
   { s with peers := (updatePeersGo s.peers s.peer_state_rx).2, peer_state_rx := [] })

/-- `WebRtcSocket::connected_peers`: ids recorded as `Connected`. -/
def WebRtcSocket.connected_peers (s : WebRtcSocket) : List PeerId :=
  s.peers.filterMap (fun p => if p.2 = PeerState.Connected then some p.1 else none)

/-- `WebRtcSocket::disconnected_peers`: ids recorded as `Disconnected`. -/
def WebRtcSocket.disconnected_peers (s : WebRtcSocket) : List PeerId :=
  s.peers.filterMap (fun p => if p.2 = PeerState.Disconnected then some p.1 else none)

/-- `WebRtcSocket::id`: returns the latch if set; otherwise one
non-blocking `try_recv` on the identity link, committing a received
value to the latch (`get_or_init`); otherwise `none`. -/
def WebRtcSocket.getId (s : WebRtcSocket) : Option PeerId × WebRtcSocket :=
  match s.id with
  | some i => (some i, s)
  | none =>
    match s.id_rx with
    | [] => (none, s)
    | i :: rest => (some i, { s with id := some i, id_rx := rest })

/-- Further values delivered on the identity link after some state `s`
(sends on the `id_tx` side append to the buffered queue). -/
def WebRtcSocket.pushIds (s : WebRtcSocket) (extra : List PeerId) : WebRtcSocket :=
  { s with id_rx := s.id_rx ++ extra }

/-! ## Builder (`struct WebRtcSocketBuilder`) and `build` -/

/-- Builder for `WebRtcSocket`s. -/
structure WebRtcSocketBuilder where
  room_url : String
  ice_server : RtcIceServerConfig
  channels : List ChannelConfig
  attempts : Option Nat
  deriving DecidableEq, Repr

/-- `WebRtcSocketBuilder::new`. -/
def WebRtcSocketBuilder.new (room_url : String) : WebRtcSocketBuilder :=
  { room_url := room_url
    ice_server := RtcIceServerConfig.default
    channels := []
    attempts := some 3 }

/-- `WebRtcSocketBuilder::reconnect_attempts`. -/
def WebRtcSocketBuilder.reconnect_attempts (b : WebRtcSocketBuilder) (attempts : Option Nat) :
    WebRtcSocketBuilder :=
  { b with attempts := attempts }

/-- `WebRtcSocketBuilder::add_channel`. -/
def WebRtcSocketBuilder.add_channel (b : WebRtcSocketBuilder) (config : ChannelConfig) :
    WebRtcSocketBuilder :=
  { b with channels := b.channels ++ [config] }

/-- `WebRtcSocketBuilder::add_reliable_channel`. -/
def WebRtcSocketBuilder.add_reliable_channel (b : WebRtcSocketBuilder) : WebRtcSocketBuilder :=
  { b with channels := b.channels ++ [ChannelConfig.reliable] }

/-- `WebRtcSocketBuilder::add_unreliable_channel`. -/
def WebRtcSocketBuilder.add_unreliable_channel (b : WebRtcSocketBuilder) : WebRtcSocketBuilder :=
  { b with channels := b.channels ++ [ChannelConfig.unreliable] }

/-- The collaborator-facing bundle produced by `build` alongside the
socket (`struct MessageLoopChannels`, restricted to the per-channel
pipe halves wired at build time): for each configured channel index,
the outbound-queue consumer half and the inbound-queue producer half.
In this value model each half is identified by the buffer it reads or
feeds, which at build time is empty. -/
structure MessageLoopChannels where
  peer_messages_out_rx : List (List (PeerId × Packet))
  messages_from_peers_tx : List (List (PeerId × Packet))
  deriving DecidableEq, Repr

/-- `WebRtcSocketBuilder::build`: panics (`none`) when no channel is
configured; otherwise creates one fresh pipe pair per configured
channel, the caller-facing halves becoming the socket's channel
entries (all live, i.e. `some`) and the collaborator-facing halves the
message-loop bundle, plus the empty peer-state link, peer table and
identity latch. -/
def WebRtcSocketBuilder.build (b : WebRtcSocketBuilder) :
    Option (WebRtcSocket × MessageLoopChannels) :=
  if b.channels.isEmpty then none
  else
    some
      ({ id := none
         id_rx := []
         peer_state_rx := []
         peers := []
         channels := b.channels.map (fun _ => some WebRtcChannel.new) },
       { peer_messages_out_rx := b.channels.map (fun _ => [])
         messages_from_peers_tx := b.channels.map (fun _ => []) })

/-! ## Readiness gating (`create_data_channels_ready_fut` / `wait_for_ready`) -/

/-- One per-channel readiness link, a capacity-one
`futures_channel::mpsc::channel(1)` pair. -/
structure ReadyChannelPair where
  capacity : Nat
  deriving DecidableEq, Repr

/-- `create_data_channels_ready_fut`: one capacity-one readiness link
per configured channel, in configuration order; the returned future is
`wait_for_ready` over the receiver halves. -/
def create_data_channels_ready_fut (channel_configs : List ChannelConfig) :
    List ReadyChannelPair :=
  channel_configs.map (fun _ => { capacity := 1 })

/-- What awaiting `receiver.next()` on one readiness link eventually
observes: either the one readiness notification, or `None` because the
sender half closed without sending. -/
inductive ReadyOutcome where
  | ready
  | closed
  deriving DecidableEq, Repr

/-- `wait_for_ready`: awaits one notification per link, in
configured-channel order; panics (`none`) as soon as a sender closed
before its channel was ready; completes (`some ()`) after all links
delivered. -/
def wait_for_ready : List ReadyOutcome → Option Unit
  | [] => some ()
  | ReadyOutcome.ready :: rest => wait_for_ready rest
  | ReadyOutcome.closed :: _ => none

/-! ## The orchestrator (`run_socket`)

`run_socket` races the fused signalling-loop future against the fused
message-loop future with `select!`.  A run of the loop is determined by
the ordered sequence of completion events it observes: each process
completes at most once (`Fuse` keeps a completed future from being
polled again), and the loop suspends between events. -/

/-- `SignallingError`.  Modelled from the spec: the signalling error
type lives in `webrtc_socket/error.rs`, outside this core; the spec
requires at least a connection-failure variant distinguishing retry
exhaustion. -/
inductive SignallingError where
  | connectionFailed (detail : String)
  | other (detail : String)
  deriving DecidableEq, Repr

/-- Crate-level `Error`.  Modelled from the spec: `Error::from` wraps a
`SignallingError` into the single error type the orchestration unit
resolves to. -/
inductive Error where
  | Signalling (e : SignallingError)
  deriving DecidableEq, Repr

/-- One completion event observed by the `select!` loop: the message
loop finished (its result is ignored), or the signalling loop finished
with its `Result`. -/
inductive OrchEvent where
  | msgDone
  | sigDone (r : Except SignallingError Unit)
  deriving Repr

/-- The `loop { select! { ... } }` of `run_socket`, as a function of
the ordered completion events it observes: message-loop completion
breaks with `Ok(())`; a signalling error returns it (wrapped by
`Error::from`); a clean signalling completion just continues the loop.
`none` means the loop is still suspended waiting for a further
completion. -/
def run_socket : List OrchEvent → Option (Except Error Unit)
  | [] => none
  | OrchEvent.msgDone :: _ => some (Except.ok ())
  | OrchEvent.sigDone (Except.error e) :: _ => some (Except.error (Error.Signalling e))
  | OrchEvent.sigDone (Except.ok ()) :: rest => run_socket rest

/-! ## Spec-side definitions for the diff engine (§4.4)

Stated from the spec's words, to be compared with the source-derived
`updatePeersGo`: "for each event, inserts/overwrites the table entry,
emitting the pair into the result set only if the new state differs
from the previous recorded state for that identifier (first-ever
observation counts as a change)". -/

/-- Spec-side overwrite of the table entry for `id`. -/
def specStore : PeerMap → PeerId → PeerState → PeerMap
  | [], id, st => [(id, st)]
  | (k, v) :: rest, id, st =>
    if k = id then (id, st) :: rest else (k, v) :: specStore rest id st

/-- Spec-side change set: the ordered subsequence of drained events
whose state differs from the previously recorded state for that
identifier, a first-ever observation always counting as a change. -/
def specChanges (recorded : PeerMap) :
    List (PeerId × PeerState) → List (PeerId × PeerState)
  | [] => []
  | (id, st) :: rest =>
    if lookupPeer recorded id ≠ some st
    then (id, st) :: specChanges (specStore recorded id st) rest
    else specChanges (specStore recorded id st) rest

/-- Spec-side final table: every drained event recorded in order. -/
def specRecord (recorded : PeerMap) : List (PeerId × PeerState) → PeerMap
  | [] => recorded
  | (id, st) :: rest => specRecord (specStore recorded id st) rest

/-! ## Concrete states used to instantiate the theorems -/

/-- A socket with the event sequence
`[(A, Connected), (A, Connected), (B, Disconnected)]` (`A = 0`, `B = 1`)
buffered on the peer-state link. -/
def exampleSocketAB : WebRtcSocket :=
  { id := none
    id_rx := []
    peer_state_rx :=
      [(0, PeerState.Connected), (0, PeerState.Connected), (1, PeerState.Disconnected)]
    peers := []
    channels := [some WebRtcChannel.new] }

/-- A freshly built socket with two channel handles. -/
def socketTwoChannels : WebRtcSocket :=
  { id := none
    id_rx := []
    peer_state_rx := []
    peers := []
    channels := [some WebRtcChannel.new, some WebRtcChannel.new] }

/-- A socket with no identity delivered yet. -/
def socketIdFresh : WebRtcSocket :=
  { id := none, id_rx := [], peer_state_rx := [], peers := []
    channels := [some WebRtcChannel.new] }

/-- A socket with identity `7` buffered on the identity link but not
yet latched. -/
def socketIdDelivered : WebRtcSocket :=
  { id := none, id_rx := [7], peer_state_rx := [], peers := []
    channels := [some WebRtcChannel.new] }

/-- A socket whose identity latch already holds `7`. -/
def socketIdSet : WebRtcSocket :=
  { id := some 7, id_rx := [], peer_state_rx := [], peers := []
    channels := [some WebRtcChannel.new] }

/-- An open channel with two buffered inbound packets. -/
def openChannelBuffered : WebRtcChannel :=
  { tx := [], rx := [(3, [1]), (4, [2])], rx_closed := false }

/-- A channel whose collaborator-side sender half has closed, the
inbound buffer empty. -/
def closedChannelEmpty : WebRtcChannel :=
  { tx := [], rx := [], rx_closed := true }

/-- A channel whose sender half has closed while a packet is still
buffered inbound. -/
def closedChannelBuffered : WebRtcChannel :=
  { tx := [], rx := [(3, [1])], rx_closed := true }

/-- A builder configured with one reliable and one unreliable channel. -/
def builderTwo : WebRtcSocketBuilder :=
  ((WebRtcSocketBuilder.new "wss://example.invalid").add_reliable_channel).add_unreliable_channel

/-- A socket with peer `5` recorded as disconnected. -/
def socketPeerFive : WebRtcSocket :=
  { id := none, id_rx := [], peer_state_rx := [], peers := [(5, PeerState.Disconnected)]
    channels := [some WebRtcChannel.new] }

/-! ## Helper lemmas -/

theorem receiveGo_open (q : List (PeerId × Packet)) : receiveGo false q = some q := by
  induction q with
  | nil => rfl
  | cons x xs ih => simp [receiveGo, ih]

theorem receiveGo_closed (q : List (PeerId × Packet)) : receiveGo true q = none := by
  induction q with
  | nil => rfl
  | cons x xs ih => simp [receiveGo, ih]

theorem insertPeer_fst (m : PeerMap) (id : PeerId) (st : PeerState) :
    (insertPeer m id st).1 = lookupPeer m id := by
  induction m with
  | nil => rfl
  | cons p rest ih =>
    obtain ⟨k, v⟩ := p
    by_cases hk : k = id <;> simp [insertPeer, lookupPeer, hk, ih]

theorem insertPeer_snd (m : PeerMap) (id : PeerId) (st : PeerState) :
    (insertPeer m id st).2 = specStore m id st := by
  induction m with
  | nil => rfl
  | cons p rest ih =>
    obtain ⟨k, v⟩ := p
    by_cases hk : k = id <;> simp [insertPeer, specStore, hk, ih]

theorem updatePeersGo_changes (q : List (PeerId × PeerState)) (m : PeerMap) :
    (updatePeersGo m q).1 = specChanges m q := by
  induction q generalizing m with
  | nil => rfl
  | cons ev rest ih =>
    obtain ⟨id, st⟩ := ev
    by_cases h : lookupPeer m id = some st <;>
      simp [updatePeersGo, specChanges, insertPeer_fst, insertPeer_snd, ih, h]

theorem updatePeersGo_peers (q : List (PeerId × PeerState)) (m : PeerMap) :
    (updatePeersGo m q).2 = specRecord m q := by
  induction q generalizing m with
  | nil => rfl
  | cons ev rest ih =>
    obtain ⟨id, st⟩ := ev
    simp [updatePeersGo, specRecord, insertPeer_snd, ih]

theorem lookupPeer_specStore (m : PeerMap) (k id : PeerId) (v : PeerState) :
    lookupPeer (specStore m k v) id = if k = id then some v else lookupPeer m id := by
  induction m with
  | nil =>
    by_cases hk : k = id <;> simp [specStore, lookupPeer, hk]
  | cons p rest ih =>
    obtain ⟨k', v'⟩ := p
    by_cases hk : k' = k
    · subst hk
      by_cases hid : k' = id <;> simp [specStore, lookupPeer, hid]
    · by_cases hid : k' = id
      · subst hid
        have : ¬ k = k' := fun h => hk h.symm
        simp [specStore, lookupPeer, hk, this]
      · simp [specStore, lookupPeer, hk, hid, ih]

theorem specRecord_preserves (q : List (PeerId × PeerState)) (m : PeerMap) (id : PeerId) :
    (lookupPeer m id).isSome → (lookupPeer (specRecord m q) id).isSome := by
  induction q generalizing m with
  | nil => exact fun h => h
  | cons ev rest ih =>
    obtain ⟨k, st⟩ := ev
    intro h
    apply ih
    rw [lookupPeer_specStore]
    by_cases hk : k = id <;> simp [hk, h]

theorem foldl_pushInbound (pkts : List (PeerId × Packet)) (c : WebRtcChannel) :
    pkts.foldl WebRtcChannel.pushInbound c =
      { c with rx := c.rx ++ pkts } := by
  induction pkts generalizing c with
  | nil => simp
  | cons x xs ih => simp [WebRtcChannel.pushInbound, ih]

theorem mem_filterMap_disconnected (m : PeerMap) (id : PeerId) :
    lookupPeer m id = some PeerState.Disconnected →
    id ∈ m.filterMap (fun p => if p.2 = PeerState.Disconnected then some p.1 else none) := by
  induction m with
  | nil => intro h; simp [lookupPeer] at h
  | cons p rest ih =>
    obtain ⟨k, v⟩ := p
    intro h
    by_cases hk : k = id
    · subst hk
      simp [lookupPeer] at h
      subst h
      simp
    · simp [lookupPeer, hk] at h
      have := ih h
      by_cases hv : v = PeerState.Disconnected <;> simp [hv, this]

/-! ## Claim theorems -/

/-- C1: one `update_peers()` call drains every buffered
`(PeerIdentifier, PeerState)` event from the peer-state link, records
each into the peer table, and returns exactly the ordered subsequence
of pairs whose state differs from the previously recorded state for
that identifier, a first-ever observation always counting as a change;
in particular `[(A, Connected), (A, Connected), (B, Disconnected)]`
yields exactly `[(A, Connected), (B, Disconnected)]`. -/
theorem update_peers_drains_and_diffs :
    (∀ s : WebRtcSocket,
        (s.update_peers).2.peer_state_rx = [] ∧
        (s.update_peers).1 = specChanges s.peers s.peer_state_rx ∧
        (s.update_peers).2.peers = specRecord s.peers s.peer_state_rx) ∧
    (exampleSocketAB.update_peers).1 =
      [(0, PeerState.Connected), (1, PeerState.Disconnected)] := by
  refine ⟨fun s => ⟨rfl, ?_, ?_⟩, by decide⟩
  · exact updatePeersGo_changes s.peer_state_rx s.peers
  · exact updatePeersGo_peers s.peer_state_rx s.peers

/-- C3: if the message process completes first, the orchestrator
terminates successfully; if the signalling process completes
successfully first, the orchestrator does not terminate at that point
but keeps waiting on the message process alone (and terminates
successfully when it later completes). -/
theorem run_socket_message_loop_is_anchor :
    (∀ rest, run_socket (OrchEvent.msgDone :: rest) = some (Except.ok ())) ∧
    (∀ rest, run_socket (OrchEvent.sigDone (Except.ok ()) :: rest) = run_socket rest) ∧
    run_socket [OrchEvent.sigDone (Except.ok ())] = none ∧
    run_socket [OrchEvent.sigDone (Except.ok ()), OrchEvent.msgDone] = some (Except.ok ()) :=
  ⟨fun _ => rfl, fun _ => rfl, rfl, rfl⟩

/-- C2: whenever the signalling process completes with an error (all
events the loop observed before it being clean signalling completions,
i.e. the message process has not completed), the orchestrator
terminates with exactly that error; and any error the orchestration
unit resolves to is such a signalling error observed in its run. -/
theorem run_socket_signalling_error_fatal :
    (∀ (pre : List OrchEvent) (e : SignallingError) (rest : List OrchEvent),
        (∀ x ∈ pre, x = OrchEvent.sigDone (Except.ok ())) →
        run_socket (pre ++ OrchEvent.sigDone (Except.error e) :: rest) =
          some (Except.error (Error.Signalling e))) ∧
    (∀ (events : List OrchEvent) (err : Error),
        run_socket events = some (Except.error err) →
        ∃ e, err = Error.Signalling e ∧ OrchEvent.sigDone (Except.error e) ∈ events) := by
  constructor
  · intro pre e rest hpre
    induction pre with
    | nil => rfl
    | cons x xs ih =>
      have hx := hpre x (List.mem_cons_self x xs)
      subst hx
      exact ih (fun y hy => hpre y (List.mem_cons_of_mem _ hy))
  · intro events err h
    induction events with
    | nil => simp [run_socket] at h
    | cons x xs ih =>
      match x with
      | OrchEvent.msgDone => simp [run_socket] at h
      | OrchEvent.sigDone (Except.ok ()) =>
        obtain ⟨e, he, hm⟩ := ih h
        exact ⟨e, he, List.mem_cons_of_mem _ hm⟩
      | OrchEvent.sigDone (Except.error e) =>
        simp [run_socket] at h
        exact ⟨e, h.symm, List.mem_cons_self _ _⟩

/-- Witness for C2 at a concrete run: a lone erroneous signalling
completion resolves the orchestrator to that error, and that error is
traced back to its signalling event. -/
theorem run_socket_signalling_error_fatal_witness :
    run_socket [OrchEvent.sigDone (Except.error (SignallingError.connectionFailed "down"))] =
      some (Except.error (Error.Signalling (SignallingError.connectionFailed "down"))) ∧
    ∃ e, Error.Signalling (SignallingError.connectionFailed "down") = Error.Signalling e ∧
      OrchEvent.sigDone (Except.error e) ∈
        [OrchEvent.sigDone (Except.error (SignallingError.connectionFailed "down"))] :=
  ⟨run_socket_signalling_error_fatal.1 [] _ [] (by simp),
   run_socket_signalling_error_fatal.2 _ _ rfl⟩

/-- C4 counterexample: once the collaborator-side sender half of the
inbound pipe has closed, `receive()` never returns — on an empty
inbound queue it does not produce the empty result the claim requires
(the collect loop spins forever), and a buffered packet is never
delivered either. -/
theorem receive_closed_link_diverges :
    closedChannelEmpty.receive = none ∧ closedChannelBuffered.receive = none :=
  ⟨rfl, rfl⟩

/-- C4 (amended): while the collaborator-side sender half of the
inbound pipe is open, `receive()` returns without blocking or erroring:
the empty result on an empty inbound queue, and for every K packets
enqueued on the inbound queue a single `receive()` call returns
exactly those K `(PeerIdentifier, Packet)` pairs in arrival order,
removing them from the queue (outbound queue untouched); once the
sender half has closed, `receive()` never returns, with or without
buffered packets. -/
theorem receive_drains_open_link :
    (∀ c : WebRtcChannel, c.rx_closed = false →
        c.receive = some (c.rx, { c with rx := [] })) ∧
    (∀ (tx pkts : List (PeerId × Packet)),
        ((pkts.foldl WebRtcChannel.pushInbound
            { tx := tx, rx := [], rx_closed := false }).receive) =
          some (pkts, { tx := tx, rx := [], rx_closed := false })) ∧
    (∀ c : WebRtcChannel, c.rx_closed = true → c.receive = none) := by
  refine ⟨?_, ?_, ?_⟩
  · intro c hc
    simp [WebRtcChannel.receive, hc, receiveGo_open]
  · intro tx pkts
    simp [foldl_pushInbound, WebRtcChannel.receive, receiveGo_open]
  · intro c hc
    simp [WebRtcChannel.receive, hc, receiveGo_closed]

/-- Witness for C4 at concrete channels: an open two-packet buffer
drains in arrival order, a fresh open channel yields the empty result,
and the closed regime never returns. -/
theorem receive_drains_open_link_witness :
    openChannelBuffered.receive =
      some ([(3, [1]), (4, [2])], { openChannelBuffered with rx := [] }) ∧
    WebRtcChannel.new.receive = some ([], { WebRtcChannel.new with rx := [] }) ∧
    closedChannelEmpty.receive = none :=
  ⟨receive_drains_open_link.1 openChannelBuffered rfl,
   receive_drains_open_link.1 WebRtcChannel.new rfl,
   receive_drains_open_link.2.2 closedChannelEmpty rfl⟩

/-- C5: for a valid configured index `i`, `take_channel(i)` succeeds,
after which `channel(i)` returns "none", a repeated `take_channel(i)`
returns "none", and every other index is unchanged by the take. -/
theorem take_channel_relinquishes (s : WebRtcSocket) (i : Nat) (h : i < s.channels.length) :
    ∃ taken s', s.take_channel i = some (taken, s') ∧
      s'.channel i = some none ∧
      (∃ s'', s'.take_channel i = some (none, s'')) ∧
      ∀ j, j ≠ i → s'.channel j = s.channel j := by
  have hget : s.channels[i]? = some s.channels[i] := List.getElem?_eq_getElem h
  have hset : (s.channels.set i none)[i]? = some none := List.getElem?_set_eq_of_lt none h
  refine ⟨s.channels[i], { s with channels := s.channels.set i none }, ?_, ?_, ?_, ?_⟩
  · simp [WebRtcSocket.take_channel, hget]
  · simp [WebRtcSocket.channel, hset]
  · refine ⟨{ s with channels := (s.channels.set i none).set i none }, ?_⟩
    simp [WebRtcSocket.take_channel, hset]
  · intro j hj
    simp [WebRtcSocket.channel, List.getElem?_set_ne (fun hij => hj hij.symm)]

/-- Witness for C5 on a two-channel socket: taking channel 0 leaves
"none" at index 0 and the other index untouched. -/
theorem take_channel_relinquishes_witness :
    ∃ taken s', socketTwoChannels.take_channel 0 = some (taken, s') ∧
      s'.channel 0 = some none ∧
      (∃ s'', s'.take_channel 0 = some (none, s'')) ∧
      ∀ j, j ≠ 0 → s'.channel j = socketTwoChannels.channel j :=
  take_channel_relinquishes socketTwoChannels 0 (by decide)

/-- C6: `id()` returns "none" before any identity delivery; the first
observed value is committed to the write-once latch; and once the
latch holds a value, every later `id()` call returns that same value
unchanged even if further values arrive on the identity link. -/
theorem id_latch_write_once :
    (∀ s : WebRtcSocket, s.id = none → s.id_rx = [] → (s.getId).1 = none) ∧
    (∀ (s : WebRtcSocket) (v : PeerId), (s.getId).1 = some v → ((s.getId).2).id = some v) ∧
    (∀ (s : WebRtcSocket) (v : PeerId), s.id = some v →
        ∀ extra, (s.pushIds extra).getId = (some v, s.pushIds extra)) := by
  refine ⟨?_, ?_, ?_⟩
  · intro s h1 h2
    simp [WebRtcSocket.getId, h1, h2]
  · intro s v h
    match hs : s.id with
    | some i =>
      have h2 : i = v := by simpa [WebRtcSocket.getId, hs] using h
      simp [WebRtcSocket.getId, hs, h2]
    | none =>
      match hr : s.id_rx with
      | [] => simp [WebRtcSocket.getId, hs, hr] at h
      | i :: rest =>
        have h2 : i = v := by simpa [WebRtcSocket.getId, hs, hr] using h
        simp [WebRtcSocket.getId, hs, hr, h2]
  · intro s v h extra
    simp [WebRtcSocket.getId, WebRtcSocket.pushIds, h]

/-- Witness for C6 at concrete sockets: no identity yields "none"; a
delivered identity `7` is committed; with the latch set to `7`, a call
after further deliveries `[8, 9]` still returns `7` and changes
nothing. -/
theorem id_latch_write_once_witness :
    (socketIdFresh.getId).1 = none ∧
    ((socketIdDelivered.getId).2).id = some 7 ∧
    (socketIdSet.pushIds [8, 9]).getId = (some 7, socketIdSet.pushIds [8, 9]) :=
  ⟨id_latch_write_once.1 socketIdFresh rfl rfl,
   id_latch_write_once.2.1 socketIdDelivered 7 rfl,
   id_latch_write_once.2.2 socketIdSet 7 rfl [8, 9]⟩

/-- C7: `build` on a builder with an empty channel-configuration list
fails fatally (no socket handle or orchestration unit is produced),
and with at least one channel configured it does not fail. -/
theorem build_requires_channels :
    (∀ b : WebRtcSocketBuilder, b.channels = [] → b.build = none) ∧
    (∀ b : WebRtcSocketBuilder, b.channels ≠ [] → (b.build).isSome) := by
  constructor
  · intro b hb
    simp [WebRtcSocketBuilder.build, hb]
  · intro b hb
    simp [WebRtcSocketBuilder.build, hb]

/-- Witness for C7: a fresh builder (no channels) fails to build; the
same builder with one reliable channel builds successfully. -/
theorem build_requires_channels_witness :
    (WebRtcSocketBuilder.new "wss://example.invalid").build = none ∧
    (((WebRtcSocketBuilder.new "wss://example.invalid").add_reliable_channel).build).isSome :=
  ⟨build_requires_channels.1 _ rfl, build_requires_channels.2 _ (by decide)⟩

/-- C8: for a non-empty configuration list of length N, `build`
produces a socket whose channel list has exactly N entries, each index
`0 ≤ i < N` holding a live (`some`) fresh handle wired positionally to
configuration `i`, with matching per-channel collaborator halves. -/
theorem build_channel_multiplexing (b : WebRtcSocketBuilder) (hb : b.channels ≠ []) :
    ∃ s mlc, b.build = some (s, mlc) ∧
      s.channels.length = b.channels.length ∧
      (∀ i, i < b.channels.length → s.channels.get? i = some (some WebRtcChannel.new)) ∧
      mlc.peer_messages_out_rx.length = b.channels.length ∧
      mlc.messages_from_peers_tx.length = b.channels.length := by
  refine
    ⟨{ id := none, id_rx := [], peer_state_rx := [], peers := []
       channels := b.channels.map (fun _ => some WebRtcChannel.new) },
     { peer_messages_out_rx := b.channels.map (fun _ => [])
       messages_from_peers_tx := b.channels.map (fun _ => []) },
     ?_, ?_, ?_, ?_, ?_⟩
  · simp [WebRtcSocketBuilder.build, hb]
  · simp
  · intro i hi
    have hgi : b.channels[i]? = some b.channels[i] := List.getElem?_eq_getElem hi
    simp [List.getElem?_map, hgi, List.getElem?_replicate, hi]
  · simp
  · simp

/-- Witness for C8 at a two-channel builder. -/
theorem build_channel_multiplexing_witness :
    ∃ s mlc, builderTwo.build = some (s, mlc) ∧
      s.channels.length = builderTwo.channels.length ∧
      (∀ i, i < builderTwo.channels.length →
        s.channels.get? i = some (some WebRtcChannel.new)) ∧
      mlc.peer_messages_out_rx.length = builderTwo.channels.length ∧
      mlc.messages_from_peers_tx.length = builderTwo.channels.length :=
  build_channel_multiplexing builderTwo (by decide)

/-- C9: peer-table entries are never removed: an identifier recorded
before any sequence of `update_peers()` calls (each draining a batch
of delivered events) is still recorded after it; and a peer recorded
as `Disconnected` is reported by `disconnected_peers()`. -/
theorem peer_table_monotone :
    (∀ (batches : List (List (PeerId × PeerState))) (m : PeerMap) (id : PeerId),
        (lookupPeer m id).isSome →
        (lookupPeer (batches.foldl (fun acc b => (updatePeersGo acc b).2) m) id).isSome) ∧
    (∀ (s : WebRtcSocket) (id : PeerId),
        lookupPeer s.peers id = some PeerState.Disconnected →
        id ∈ s.disconnected_peers) := by
  constructor
  · intro batches
    induction batches with
    | nil => exact fun m id h => h
    | cons b rest ih =>
      intro m id h
      simp only [List.foldl_cons]
      exact ih _ id (by rw [updatePeersGo_peers]; exact specRecord_preserves b m id h)
  · intro s id h
    exact mem_filterMap_disconnected s.peers id h

/-- Witness for C9: peer `5`, recorded `Connected`, survives two
updates (ending `Disconnected`); socket with peer `5` disconnected
reports it. -/
theorem peer_table_monotone_witness :
    (lookupPeer ([[(5, PeerState.Disconnected)], []].foldl
        (fun acc b => (updatePeersGo acc b).2) [(5, PeerState.Connected)]) 5).isSome ∧
    5 ∈ socketPeerFive.disconnected_peers :=
  ⟨peer_table_monotone.1 _ _ 5 (by decide),
   peer_table_monotone.2 socketPeerFive 5 rfl⟩

/-- C10: the gating helper owns one capacity-one readiness link per
configured channel, in configuration order; it completes exactly when
every link delivers its readiness notification and fails fatally
exactly when some sender closed before notifying. -/
theorem readiness_gate_one_per_channel :
    (∀ cfgs : List ChannelConfig,
        (create_data_channels_ready_fut cfgs).length = cfgs.length ∧
        ∀ p ∈ create_data_channels_ready_fut cfgs, p.capacity = 1) ∧
    (∀ outcomes : List ReadyOutcome,
        (wait_for_ready outcomes = some () ↔ ∀ x ∈ outcomes, x = ReadyOutcome.ready) ∧
        (wait_for_ready outcomes = none ↔ ReadyOutcome.closed ∈ outcomes)) := by
  constructor
  · intro cfgs
    constructor
    · simp [create_data_channels_ready_fut]
    · intro p hp
      obtain ⟨a, _, hpa⟩ := List.mem_map.mp hp
      subst hpa
      rfl
  · intro outcomes
    induction outcomes with
    | nil => simp [wait_for_ready]
    | cons x xs ih =>
      match x with
      | ReadyOutcome.ready => simpa [wait_for_ready] using ih
      | ReadyOutcome.closed => simp [wait_for_ready]

/-- Witness for C10: two delivered notifications complete the gate; a
closed sender in the second slot makes it fail. -/
theorem readiness_gate_one_per_channel_witness :
    wait_for_ready [ReadyOutcome.ready, ReadyOutcome.ready] = some () ∧
    wait_for_ready [ReadyOutcome.ready, ReadyOutcome.closed] = none :=
  ⟨(readiness_gate_one_per_channel.2 _).1.mpr (by decide),
   (readiness_gate_one_per_channel.2 _).2.mpr (by decide)⟩

end Matchbox
